import Mathlib

/-!
Verification of the stream-chat-react presentational components against
their natural-language specification.

The development shallowly embeds three pieces of the repository:

* the `TypingIndicator` component (`src/unnamed/part_000`): its visibility
  boolean and its rendered markup (container class string, avatar list,
  dot count);
* the `withChatContext` higher-order component (`src/context/ChatContext.js`):
  JavaScript object spread-merge of context and props, and the
  `displayName` computation;
* the `MessageCommerce` message component, whose implementation is absent
  from the sources (only its test file
  `src/components/Message/__tests__/MessageCommerce.test.js` is present);
  it is modelled from the specification and the expectations of that test
  file.

JavaScript objects are modelled as association lists `List (String × V)`
with first-match lookup; absent string fields (falsy `undefined` or the
empty string under `||`) are modelled as `""`.
-/

/-- A chat user as consumed by the typing indicator: `user.id`,
`user.name`, `user.image`.  A missing `name`/`image` is modelled as `""`
(JavaScript falsy). -/
structure ChatUser where
  id : String
  name : String
  image : String
deriving DecidableEq, Repr

/-- One entry of the typing-state map (`Object.values(props.typing)`
element): a record carrying the typing user. -/
structure TypingEvent where
  user : ChatUser
deriving DecidableEq, Repr

/-- The chat client as consumed by the typing indicator: `client.user`. -/
structure ChatClient where
  user : ChatUser
deriving DecidableEq, Repr

/-- The visibility boolean `show` computed by `TypingIndicator`
(`src/unnamed/part_000`, lines 11-20):

`typing.length === 0 || (typing.length === 1 && typing[0].user.id ===
props.client.user.id)` yields `show = false`, otherwise `show = true`.
`typing` is `Object.values(props.typing)`, modelled as a list. -/
def typingShow (typing : List TypingEvent) (currentUserId : String) : Bool :=
  if typing.length = 0 ∨
      (typing.length = 1 ∧ typing.head?.map (fun e => e.user.id) = some currentUserId)
  then false else true

/-- The props the typing indicator passes to each `Avatar`:
`image={user.image} size={32} name={user.name || user.id}`. -/
structure AvatarProps where
  image : String
  size : Nat
  name : String
deriving DecidableEq, Repr

/-- Abstract rendered output of `TypingIndicator`: the container class
string, the avatar children, and the number of dot spans. -/
structure TypingIndicatorRender where
  className : String
  avatars : List AvatarProps
  dots : Nat
deriving DecidableEq, Repr

/-- The render of `TypingIndicator` (`src/unnamed/part_000`, lines 22-46):
always a container whose class is
`str-chat__typing-indicator ${show ? 'str-chat__typing-indicator--typing' : ''}`,
an avatar per typing entry whose `user.id` differs from
`props.client.user.id`, and three dot spans. -/
def renderTypingIndicator (typing : List TypingEvent) (client : ChatClient) :
    TypingIndicatorRender :=
  { className := "str-chat__typing-indicator " ++
      (if typingShow typing client.user.id then "str-chat__typing-indicator--typing"
       else "")
    avatars :=
      (typing.filter (fun e => e.user.id != client.user.id)).map
        (fun e =>
          { image := e.user.image
            size := 32
            name := if e.user.name != "" then e.user.name else e.user.id })
    dots := 3 }

/-- **C1.** The typing indicator's computed visibility is `false` iff the
typing map is empty or its only entry's user id is the current user's id;
for every other map it is `true`. -/
theorem typingShow_false_iff (typing : List TypingEvent) (uid : String) :
    typingShow typing uid = false ↔
      typing = [] ∨ ∃ e : TypingEvent, typing = [e] ∧ e.user.id = uid := by
  match typing with
  | [] => simp [typingShow]
  | [e] =>
    by_cases h : e.user.id = uid <;> simp [typingShow, List.head?, h]
  | e1 :: e2 :: rest =>
    simp [typingShow, List.head?]

/-- **C10.** The typing indicator's rendered output is never empty: it
always carries the container (class string extending
`str-chat__typing-indicator`), one avatar per typing entry whose user id
differs from the current user's, and exactly three dots; the visibility
boolean only selects between the two container class strings and removes
no markup. -/
theorem renderTypingIndicator_markup (typing : List TypingEvent) (client : ChatClient) :
    (renderTypingIndicator typing client).dots = 3 ∧
    (renderTypingIndicator typing client).avatars.length =
      (typing.filter (fun e => e.user.id != client.user.id)).length ∧
    ((renderTypingIndicator typing client).className = "str-chat__typing-indicator " ∨
      (renderTypingIndicator typing client).className =
        "str-chat__typing-indicator str-chat__typing-indicator--typing") ∧
    ((renderTypingIndicator typing client).className =
        "str-chat__typing-indicator str-chat__typing-indicator--typing" ↔
      typingShow typing client.user.id = true) := by
  refine ⟨rfl, by simp [renderTypingIndicator], ?_, ?_⟩
  · cases h : typingShow typing client.user.id <;>
      simp only [renderTypingIndicator, h] <;> decide
  · cases h : typingShow typing client.user.id <;>
      simp only [renderTypingIndicator, h] <;> simp

/-- First-match lookup of a key in a JavaScript object modelled as an
association list (property access `o[k]`). -/
def objLookup {V : Type} (k : String) : List (String × V) → Option V
  | [] => none
  | p :: rest => if p.1 = k then some p.2 else objLookup k rest

/-- Property assignment `o[k] = v` on a JavaScript object: overwrite the
value when the key is present, append the property otherwise. -/
def objSet {V : Type} (o : List (String × V)) (k : String) (v : V) :
    List (String × V) :=
  if o.any (fun p => p.1 == k) then
    o.map (fun p => if p.1 = k then (k, v) else p)
  else o ++ [(k, v)]

/-- JavaScript object spread `{ ...a, ...b }`: start from a copy of `a`
and assign each property of `b` in order. -/
def objSpread {V : Type} (a b : List (String × V)) : List (String × V) :=
  b.foldl (fun acc kv => objSet acc kv.1 kv.2) a

/-- The merged props computed by `withChatContext`
(`src/context/ChatContext.js`, line 10): `{ ...context, ...props }`. -/
def mergedProps {V : Type} (context props : List (String × V)) :
    List (String × V) :=
  objSpread context props

/-- The component returned by `withChatContext` renders the wrapped
component on the merged props (`src/context/ChatContext.js`, lines 5-15):
`<OriginalComponent {...mergedProps} />`. -/
def withChatContextRender {V R : Type} (OriginalComponent : List (String × V) → R)
    (context props : List (String × V)) : R :=
  OriginalComponent (mergedProps context props)

theorem objLookup_cons {V : Type} (p : String × V) (rest : List (String × V))
    (k : String) :
    objLookup k (p :: rest) = if p.1 = k then some p.2 else objLookup k rest := rfl

theorem objLookup_map_overwrite {V : Type} (o : List (String × V)) (k k' : String)
    (v : V) (hk : ¬ k = k') :
    objLookup k (o.map fun p => if p.1 = k' then (k', v) else p) = objLookup k o := by
  induction o with
  | nil => rfl
  | cons p rest ih =>
    rw [List.map_cons]
    by_cases hp : p.1 = k'
    · rw [if_pos hp, objLookup_cons, objLookup_cons,
        if_neg (show ¬ (k', v).1 = k from fun h => hk h.symm),
        if_neg (show ¬ p.1 = k from fun h => hk (h.symm.trans hp)), ih]
    · rw [if_neg hp, objLookup_cons, objLookup_cons]
      by_cases hpk : p.1 = k
      · rw [if_pos hpk, if_pos hpk]
      · rw [if_neg hpk, if_neg hpk, ih]

theorem objLookup_map_overwrite_hit {V : Type} (o : List (String × V)) (k : String)
    (v : V) (hmem : (o.any fun p => p.1 == k) = true) :
    objLookup k (o.map fun p => if p.1 = k then (k, v) else p) = some v := by
  induction o with
  | nil => simp at hmem
  | cons p rest ih =>
    rw [List.map_cons]
    by_cases hp : p.1 = k
    · rw [if_pos hp, objLookup_cons, if_pos (show (k, v).1 = k from rfl)]
    · rw [List.any_cons, Bool.or_eq_true] at hmem
      rcases hmem with hmem | hmem
      · exact absurd (by simpa using hmem) hp
      · rw [if_neg hp, objLookup_cons, if_neg hp]
        exact ih hmem

theorem objLookup_none_of_not_any {V : Type} (o : List (String × V)) (k : String)
    (hmem : (o.any fun p => p.1 == k) = false) :
    objLookup k o = none := by
  induction o with
  | nil => rfl
  | cons p rest ih =>
    rw [List.any_cons, Bool.or_eq_false_iff] at hmem
    rw [objLookup_cons, if_neg (by simpa using hmem.1)]
    exact ih hmem.2

theorem objLookup_append {V : Type} (o l : List (String × V)) (k : String) :
    objLookup k (o ++ l) =
      match objLookup k o with
      | some v => some v
      | none => objLookup k l := by
  induction o with
  | nil => rfl
  | cons p rest ih =>
    rw [List.cons_append, objLookup_cons, objLookup_cons]
    by_cases hp : p.1 = k
    · rw [if_pos hp, if_pos hp]
    · rw [if_neg hp, if_neg hp, ih]

theorem objLookup_objSet {V : Type} (o : List (String × V)) (k k' : String) (v : V) :
    objLookup k (objSet o k' v) = if k = k' then some v else objLookup k o := by
  unfold objSet
  by_cases hmem : (o.any fun p => p.1 == k') = true
  · simp only [hmem, if_true]
    by_cases hk : k = k'
    · subst hk
      rw [if_pos rfl, objLookup_map_overwrite_hit o k v hmem]
    · rw [if_neg hk, objLookup_map_overwrite o k k' v hk]
  · rw [Bool.not_eq_true] at hmem
    simp only [hmem, Bool.false_eq_true, if_false]
    rw [objLookup_append]
    by_cases hk : k = k'
    · subst hk
      rw [if_pos rfl, objLookup_none_of_not_any o k hmem, objLookup_cons,
        if_pos (show (k, v).1 = k from rfl)]
    · rw [if_neg hk]
      cases objLookup k o with
      | some w => rfl
      | none =>
        show objLookup k [(k', v)] = none
        rw [objLookup_cons,
          if_neg (show ¬ (k', v).1 = k from fun h => hk h.symm)]
        rfl

theorem objLookup_eq_none_of_not_mem_keys {V : Type} (o : List (String × V))
    (k : String) (h : k ∉ o.map Prod.fst) : objLookup k o = none := by
  apply objLookup_none_of_not_any
  rw [List.any_eq_false]
  intro q hq
  simp only [beq_iff_eq]
  exact fun he => h (he ▸ List.mem_map_of_mem Prod.fst hq)

theorem objLookup_objSpread {V : Type} (a b : List (String × V)) (k : String)
    (hb : (b.map Prod.fst).Nodup) :
    objLookup k (objSpread a b) =
      match objLookup k b with
      | some v => some v
      | none => objLookup k a := by
  induction b generalizing a with
  | nil => rfl
  | cons p rest ih =>
    rw [List.map_cons, List.nodup_cons] at hb
    show objLookup k (objSpread (objSet a p.1 p.2) rest) = _
    rw [ih (objSet a p.1 p.2) hb.2, objLookup_cons]
    by_cases hp : p.1 = k
    · subst hp
      rw [if_pos rfl,
        objLookup_eq_none_of_not_mem_keys rest p.1 hb.1]
      show objLookup p.1 (objSet a p.1 p.2) = some p.2
      rw [objLookup_objSet, if_pos rfl]
    · rw [if_neg hp]
      cases objLookup k rest with
      | some w => rfl
      | none =>
        show objLookup k (objSet a p.1 p.2) = objLookup k a
        rw [objLookup_objSet, if_neg fun h => hp h.symm]

/-- **C2.** The component produced by `withChatContext` renders the wrapped
component on the shallow merge `{ ...context, ...props }`; on any key the
merged object yields the explicitly supplied prop value when the key is
present in `props`, and the ambient context value otherwise (keys present
in only one object pass through unchanged).  The props object, being a
JavaScript object, has pairwise-distinct keys. -/
theorem withChatContext_merge {V R : Type}
    (OriginalComponent : List (String × V) → R)
    (context props : List (String × V)) (k : String)
    (hnd : (props.map Prod.fst).Nodup) :
    withChatContextRender OriginalComponent context props =
      OriginalComponent (mergedProps context props) ∧
    (∀ v : V, objLookup k props = some v →
      objLookup k (mergedProps context props) = some v) ∧
    (objLookup k props = none →
      objLookup k (mergedProps context props) = objLookup k context) := by
  refine ⟨rfl, ?_, ?_⟩
  · intro v hv
    rw [mergedProps, objLookup_objSpread context props k hnd, hv]
  · intro hnone
    rw [mergedProps, objLookup_objSpread context props k hnd, hnone]

/-- Witness for C2 at a concrete collision: context maps `theme` to `2`,
props maps `theme` to `9`; the merged object yields `9`. -/
theorem withChatContext_merge_witness :
    objLookup "theme"
        (mergedProps [("client", (1 : Nat)), ("theme", 2)] [("theme", 9), ("x", 5)]) =
      some 9 :=
  (withChatContext_merge (fun o => o) [("client", (1 : Nat)), ("theme", 2)]
      [("theme", 9), ("x", 5)] "theme" (by decide)).2.1 9 (by decide)

/-- JavaScript `String.prototype.replace` with a string pattern replaces
only the first occurrence of the pattern, anywhere in the string.  Model
on character lists: scan left to right, and at the first position where
the pattern is a prefix of the remaining input, emit the replacement and
the input past the match. -/
def replaceFirstL (pat rep : List Char) : List Char → List Char
  | [] => if pat.isPrefixOf ([] : List Char) then rep else []
  | c :: rest =>
    if pat.isPrefixOf (c :: rest) then rep ++ (c :: rest).drop pat.length
    else c :: replaceFirstL pat rep rest

/-- Metadata of a JavaScript function component: its `displayName`
property and its function `name`.  A missing (falsy) field is modelled as
`""`. -/
structure JSComponent where
  displayName : String
  name : String
deriving DecidableEq, Repr

/-- The debugging name computed by `withChatContext`
(`src/context/ChatContext.js`, lines 16-21):
`OriginalComponent.displayName || OriginalComponent.name || 'Component'`,
then `.replace('Base', '')`. -/
def contextDisplayName (c : JSComponent) : String :=
  ((if c.displayName != "" then c.displayName
    else if c.name != "" then c.name else "Component").toList
      |> replaceFirstL "Base".toList "".toList).asString

/-- Index of the first position at which `pat` occurs in `s`, specified
by a search over all positions. -/
def firstMatchIndex (pat s : List Char) : Option Nat :=
  (List.range (s.length + 1)).find? fun i => pat.isPrefixOf (s.drop i)

/-- Removal of the first occurrence of `pat` from `s`, specified via
`firstMatchIndex`; `s` unchanged when `pat` does not occur. -/
def stripFirstOccurrence (pat s : List Char) : List Char :=
  match firstMatchIndex pat s with
  | none => s
  | some i => s.take i ++ s.drop (i + pat.length)

theorem firstMatchIndex_cons (pat : List Char) (c : Char) (rest : List Char)
    (hp : ¬ pat.isPrefixOf (c :: rest) = true) :
    firstMatchIndex pat (c :: rest) = (firstMatchIndex pat rest).map Nat.succ := by
  unfold firstMatchIndex
  rw [show (c :: rest).length = rest.length + 1 from rfl, List.range_succ_eq_map,
    List.find?_cons_of_neg, List.find?_map]
  · rfl
  · show ¬ pat.isPrefixOf ((c :: rest).drop 0) = true
    rw [List.drop_zero]
    exact hp

theorem replaceFirstL_eq_strip (pat rep s : List Char) :
    replaceFirstL pat rep s =
      match firstMatchIndex pat s with
      | none => s
      | some i => s.take i ++ rep ++ s.drop (i + pat.length) := by
  induction s with
  | nil =>
    by_cases hp : pat.isPrefixOf ([] : List Char) = true
    · have h1 : firstMatchIndex pat [] = some 0 := by
        show List.find? _ (List.range 1) = some 0
        rw [show List.range 1 = [0] from rfl]
        exact List.find?_cons_of_pos _ hp
      rw [replaceFirstL, if_pos hp, h1]
      simp
    · have h1 : firstMatchIndex pat [] = none := by
        show List.find? _ (List.range 1) = none
        rw [show List.range 1 = [0] from rfl]
        have hfalse : pat.isPrefixOf ([] : List Char) = false := by
          cases h : pat.isPrefixOf ([] : List Char)
          · rfl
          · exact absurd h hp
        simp [List.find?, List.drop_nil, hfalse]
      rw [replaceFirstL, if_neg hp, h1]
  | cons c rest ih =>
    by_cases hp : pat.isPrefixOf (c :: rest) = true
    · have h0 : firstMatchIndex pat (c :: rest) = some 0 := by
        unfold firstMatchIndex
        rw [show (c :: rest).length = rest.length + 1 from rfl,
          List.range_succ_eq_map, List.find?_cons_of_pos]
        show pat.isPrefixOf ((c :: rest).drop 0) = true
        rw [List.drop_zero]
        exact hp
      rw [replaceFirstL, if_pos hp, h0]
      simp
    · rw [replaceFirstL, if_neg hp, firstMatchIndex_cons pat c rest hp, ih]
      cases h : firstMatchIndex pat rest with
      | none => rfl
      | some i =>
        show c :: (rest.take i ++ rep ++ rest.drop (i + pat.length)) =
          (c :: rest).take (i + 1) ++ rep ++ (c :: rest).drop (i + 1 + pat.length)
        rw [List.take_succ_cons, show i + 1 + pat.length = (i + pat.length) + 1 by omega,
          List.drop_succ_cons, List.cons_append, List.cons_append]

/-- **C3 (amended).** The debugging name computed by `withChatContext` is
the wrapped component's `displayName`, falling back to its function name,
falling back to `Component`, with the first occurrence of `Base` removed
when one occurs anywhere in the string, and unchanged otherwise. -/
theorem contextDisplayName_eq_stripFirst (c : JSComponent) :
    contextDisplayName c =
      (stripFirstOccurrence "Base".toList
        ((if c.displayName != "" then c.displayName
          else if c.name != "" then c.name else "Component").toList)).asString := by
  unfold contextDisplayName stripFirstOccurrence
  rw [replaceFirstL_eq_strip]
  cases h : firstMatchIndex "Base".toList
      ((if c.displayName != "" then c.displayName
        else if c.name != "" then c.name else "Component").toList) with
  | none => rfl
  | some i => simp

/-- Counterexample to C3 as stated: the wrapped component named
`BaseMessage` does not end with the suffix `Base`, so the claim predicts
the unchanged name `BaseMessage`; the code removes the occurrence of
`Base` anywhere and yields `Message`. -/
theorem contextDisplayName_counterexample :
    contextDisplayName { displayName := "", name := "BaseMessage" } = "Message" ∧
    "Base".toList.isSuffixOf "BaseMessage".toList = false ∧
    ("Message" : String) ≠ "BaseMessage" := by
  refine ⟨by decide, by decide, by decide⟩

/-- A reaction attached to a message: its kind and its author. -/
structure Reaction where
  rtype : String
  user_id : String
deriving DecidableEq, Repr

/-- The message fields the commerce message component consumes for its
display decisions. -/
structure CommerceMessage where
  mtype : String
  status : String
  text : Option String
  deleted_at : Option String
  latest_reactions : List Reaction
  user_id : String
  reply_count : Nat
deriving DecidableEq, Repr

/-- The channel configuration flags consulted by the component. -/
structure ChannelConfig where
  reactions : Bool
  replies : Bool
deriving DecidableEq, Repr

/-- The normal message bubble of the commerce component: its wrapper
alignment modifier and the presence of its optional children. -/
structure CommerceBubble where
  alignment : String
  hasText : Bool
  showActions : Bool
  showReactionList : Bool
  showReactionSelector : Bool
deriving DecidableEq, Repr

/-- Abstract rendered output of the commerce message component. -/
inductive CommerceView where
  | empty
  | deletedCustom
  | deletedDefault
  | bubble (b : CommerceBubble)
deriving DecidableEq, Repr

/-- Modelled from the spec: the `MessageCommerce` implementation is
absent from the sources; only its test file
`src/components/Message/__tests__/MessageCommerce.test.js` is present.
Behaviour reconstructed from spec section 4.2 (in its listed order) and
the test expectations: output is suppressed for the non-content kinds
`message.read` and `message.date`; a deleted view — the caller override
when provided, the default otherwise — renders exclusively when
`deleted_at` is present; otherwise a bubble renders whose wrapper carries
the right alignment modifier iff the author is the current session user,
whose action affordances render iff the channel configuration has
reactions enabled and the message is neither of kind
error/system/ephemeral nor in delivery status sending/failed (tests at
lines 228-263), whose reaction list renders iff the message carries at
least one reaction, and whose reaction selector renders iff the local
`showDetailedReactions` state is set. -/
def renderMessageCommerce (cfg : ChannelConfig) (currentUserId : String)
    (hasCustomDeleted : Bool) (showDetailedReactions : Bool)
    (m : CommerceMessage) : CommerceView :=
  if m.mtype = "message.read" ∨ m.mtype = "message.date" then
    CommerceView.empty
  else if m.deleted_at.isSome then
    (if hasCustomDeleted then CommerceView.deletedCustom
     else CommerceView.deletedDefault)
  else
    CommerceView.bubble
      { alignment := if m.user_id = currentUserId then "right" else "left"
        hasText := m.text.isSome
        showActions := cfg.reactions &&
          !(m.mtype == "error" || m.mtype == "system" || m.mtype == "ephemeral") &&
          !(m.status == "sending" || m.status == "failed")
        showReactionList := !m.latest_reactions.isEmpty
        showReactionSelector := showDetailedReactions }

/-- Modelled from the spec: the reaction selector's shown/hidden flag is
local, ephemeral component state, hidden on mount. -/
def initialShowDetailedReactions : Bool := false

/-- Modelled from the spec: clicking the compact reaction summary reveals
the expanded reaction selector. -/
def clickReactionList (_state : Bool) : Bool :=
  true

/-- Whether a rendered view contains the action affordances. -/
def showsActions : CommerceView → Bool
  | CommerceView.bubble b => b.showActions
  | _ => false

/-- Whether a rendered view contains the compact reaction list. -/
def showsReactionList : CommerceView → Bool
  | CommerceView.bubble b => b.showReactionList
  | _ => false

/-- Whether a rendered view contains the expanded reaction selector. -/
def showsReactionSelector : CommerceView → Bool
  | CommerceView.bubble b => b.showReactionSelector
  | _ => false

/-- **C4.** A message of type `message.read` or `message.date` renders
empty output. -/
theorem renderMessageCommerce_empty_for_noncontent (cfg : ChannelConfig)
    (uid : String) (custom shown : Bool) (m : CommerceMessage)
    (h : m.mtype = "message.read" ∨ m.mtype = "message.date") :
    renderMessageCommerce cfg uid custom shown m = CommerceView.empty := by
  unfold renderMessageCommerce
  rw [if_pos h]

/-- Witness for C4 at a concrete `message.read` message. -/
theorem renderMessageCommerce_empty_for_noncontent_witness :
    renderMessageCommerce { reactions := true, replies := true } "alice"
      false false
      { mtype := "message.read", status := "received", text := none,
        deleted_at := none, latest_reactions := [], user_id := "alice",
        reply_count := 0 } = CommerceView.empty :=
  renderMessageCommerce_empty_for_noncontent _ _ _ _ _ (Or.inl rfl)

/-- **C5.** For every message that renders the normal bubble (not a
suppressed kind, no deletion timestamp), the wrapper carries the right
alignment modifier iff the author is the current session user, and the
left modifier otherwise. -/
theorem renderMessageCommerce_alignment (cfg : ChannelConfig) (uid : String)
    (custom shown : Bool) (m : CommerceMessage)
    (h1 : ¬ (m.mtype = "message.read" ∨ m.mtype = "message.date"))
    (h2 : m.deleted_at = none) :
    ∃ b : CommerceBubble,
      renderMessageCommerce cfg uid custom shown m = CommerceView.bubble b ∧
      (b.alignment = "right" ↔ m.user_id = uid) ∧
      (b.alignment = "left" ↔ ¬ m.user_id = uid) := by
  unfold renderMessageCommerce
  rw [if_neg h1, h2]
  simp only [Option.isSome_none, Bool.false_eq_true, if_false]
  by_cases ha : m.user_id = uid
  · refine ⟨_, rfl, ?_, ?_⟩ <;> simp [ha]
  · refine ⟨_, rfl, ?_, ?_⟩ <;> simp [ha]

/-- Witness for C5: a concrete own message aligns right. -/
theorem renderMessageCommerce_alignment_witness :
    ∃ b : CommerceBubble,
      renderMessageCommerce { reactions := true, replies := true } "alice"
        false false
        { mtype := "regular", status := "received", text := some "hi",
          deleted_at := none, latest_reactions := [], user_id := "alice",
          reply_count := 0 } = CommerceView.bubble b ∧
      (b.alignment = "right" ↔ ("alice" : String) = "alice") ∧
      (b.alignment = "left" ↔ ¬ ("alice" : String) = "alice") :=
  renderMessageCommerce_alignment _ _ _ _ _ (by decide) rfl

/-- **C6.** A message of kind error/system/ephemeral, or in delivery
status sending/failed, renders no action affordances. -/
theorem renderMessageCommerce_no_actions (cfg : ChannelConfig) (uid : String)
    (custom shown : Bool) (m : CommerceMessage)
    (h : m.mtype = "error" ∨ m.mtype = "system" ∨ m.mtype = "ephemeral" ∨
      m.status = "sending" ∨ m.status = "failed") :
    showsActions (renderMessageCommerce cfg uid custom shown m) = false := by
  unfold renderMessageCommerce
  by_cases h1 : m.mtype = "message.read" ∨ m.mtype = "message.date"
  · rw [if_pos h1]
    rfl
  · rw [if_neg h1]
    by_cases h2 : m.deleted_at.isSome
    · rw [if_pos h2]
      cases custom <;> rfl
    · rw [if_neg h2]
      show (cfg.reactions && _ && _) = false
      rcases h with h | h | h | h | h <;> simp [h]

/-- Witness for C6 at a concrete error message in a channel with
reactions enabled. -/
theorem renderMessageCommerce_no_actions_witness :
    showsActions (renderMessageCommerce { reactions := true, replies := true }
      "alice" false false
      { mtype := "error", status := "received", text := none,
        deleted_at := none, latest_reactions := [], user_id := "alice",
        reply_count := 0 }) = false :=
  renderMessageCommerce_no_actions _ _ _ _ _ (Or.inl rfl)

/-- **C8 (amended).** For every message carrying a deletion timestamp
whose type is not one of the suppressed non-content kinds, the deleted
view renders exclusively: the caller override when provided, the default
otherwise, with none of the normal content (actions, reaction list,
selector). -/
theorem renderMessageCommerce_deleted (cfg : ChannelConfig) (uid : String)
    (custom shown : Bool) (m : CommerceMessage)
    (h1 : ¬ (m.mtype = "message.read" ∨ m.mtype = "message.date"))
    (h2 : m.deleted_at.isSome = true) :
    renderMessageCommerce cfg uid custom shown m =
      (if custom then CommerceView.deletedCustom else CommerceView.deletedDefault) ∧
    showsActions (renderMessageCommerce cfg uid custom shown m) = false ∧
    showsReactionList (renderMessageCommerce cfg uid custom shown m) = false ∧
    showsReactionSelector (renderMessageCommerce cfg uid custom shown m) = false := by
  unfold renderMessageCommerce
  rw [if_neg h1, if_pos h2]
  cases custom <;> exact ⟨rfl, rfl, rfl, rfl⟩

/-- Witness for C8 at a concrete deleted message with an override
component supplied. -/
theorem renderMessageCommerce_deleted_witness :
    renderMessageCommerce { reactions := true, replies := true } "alice"
      true false
      { mtype := "regular", status := "received", text := some "hi",
        deleted_at := some "2019-12-17T03:24:00", latest_reactions := [],
        user_id := "alice", reply_count := 0 } =
      (if true then CommerceView.deletedCustom else CommerceView.deletedDefault) ∧
    showsActions (renderMessageCommerce { reactions := true, replies := true }
      "alice" true false
      { mtype := "regular", status := "received", text := some "hi",
        deleted_at := some "2019-12-17T03:24:00", latest_reactions := [],
        user_id := "alice", reply_count := 0 }) = false ∧
    showsReactionList (renderMessageCommerce { reactions := true, replies := true }
      "alice" true false
      { mtype := "regular", status := "received", text := some "hi",
        deleted_at := some "2019-12-17T03:24:00", latest_reactions := [],
        user_id := "alice", reply_count := 0 }) = false ∧
    showsReactionSelector (renderMessageCommerce { reactions := true, replies := true }
      "alice" true false
      { mtype := "regular", status := "received", text := some "hi",
        deleted_at := some "2019-12-17T03:24:00", latest_reactions := [],
        user_id := "alice", reply_count := 0 }) = false :=
  renderMessageCommerce_deleted _ _ _ _ _ (by decide) rfl

/-- Counterexample to C8 as stated: a message carrying a deletion
timestamp but of the suppressed type `message.read` renders empty output,
not the deleted view, even though an override component is supplied. -/
theorem renderMessageCommerce_deleted_counterexample :
    renderMessageCommerce { reactions := true, replies := true } "alice"
      true false
      { mtype := "message.read", status := "received", text := none,
        deleted_at := some "2019-12-17T03:24:00", latest_reactions := [],
        user_id := "alice", reply_count := 0 } = CommerceView.empty ∧
    CommerceView.empty ≠ CommerceView.deletedCustom ∧
    CommerceView.empty ≠ CommerceView.deletedDefault := by
  refine ⟨by decide, by decide, by decide⟩

/-- **C9 (amended).** For every message that renders the normal bubble
(kind not error/system/ephemeral and not a suppressed non-content kind,
status not sending/failed, no deletion timestamp), the action affordances
render iff the channel configuration has reactions enabled. -/
theorem renderMessageCommerce_actions_iff_reactions (cfg : ChannelConfig)
    (uid : String) (custom shown : Bool) (m : CommerceMessage)
    (h1 : ¬ (m.mtype = "error" ∨ m.mtype = "system" ∨ m.mtype = "ephemeral"))
    (h2 : ¬ (m.status = "sending" ∨ m.status = "failed"))
    (h3 : ¬ (m.mtype = "message.read" ∨ m.mtype = "message.date"))
    (h4 : m.deleted_at = none) :
    showsActions (renderMessageCommerce cfg uid custom shown m) = cfg.reactions := by
  unfold renderMessageCommerce
  rw [if_neg h3, h4]
  simp only [Option.isSome_none, Bool.false_eq_true, if_false]
  show (cfg.reactions && _ && _) = cfg.reactions
  push_neg at h1 h2
  have e1 : (m.mtype == "error") = false := beq_eq_false_iff_ne.mpr h1.1
  have e2 : (m.mtype == "system") = false := beq_eq_false_iff_ne.mpr h1.2.1
  have e3 : (m.mtype == "ephemeral") = false := beq_eq_false_iff_ne.mpr h1.2.2
  have e4 : (m.status == "sending") = false := beq_eq_false_iff_ne.mpr h2.1
  have e5 : (m.status == "failed") = false := beq_eq_false_iff_ne.mpr h2.2
  simp [e1, e2, e3, e4, e5]

/-- Witness for the amended C9: with reactions enabled in the channel
configuration, a regular message renders action affordances. -/
theorem renderMessageCommerce_actions_iff_reactions_witness :
    showsActions (renderMessageCommerce { reactions := true, replies := true }
      "alice" false false
      { mtype := "regular", status := "received", text := none,
        deleted_at := none, latest_reactions := [], user_id := "alice",
        reply_count := 0 }) =
      ({ reactions := true, replies := true } : ChannelConfig).reactions :=
  renderMessageCommerce_actions_iff_reactions _ _ _ _ _ (by decide) (by decide)
    (by decide) rfl

/-- Counterexample to C9 as stated: a `message.read` message satisfies
the claim's definition of regular (type not error/system/ephemeral,
status not sending/failed), the channel configuration has reactions
enabled, yet no action affordances render because the whole output is
suppressed. -/
theorem renderMessageCommerce_actions_counterexample :
    ¬ (("message.read" : String) = "error" ∨ ("message.read" : String) = "system" ∨
        ("message.read" : String) = "ephemeral") ∧
    ¬ (("received" : String) = "sending" ∨ ("received" : String) = "failed") ∧
    ({ reactions := true, replies := true } : ChannelConfig).reactions = true ∧
    showsActions (renderMessageCommerce { reactions := true, replies := true }
      "alice" false false
      { mtype := "message.read", status := "received", text := none,
        deleted_at := none, latest_reactions := [], user_id := "alice",
        reply_count := 0 }) = false := by
  refine ⟨by decide, by decide, rfl, by decide⟩

/-- **C7 (amended).** For every message with zero reactions and no text,
no reaction list renders; for every message with at least one reaction
that is not of a suppressed non-content kind and carries no deletion
timestamp, the reaction-list summary renders, the full selector is absent
in the initial local state, and after a click on the reaction list the
selector renders. -/
theorem renderMessageCommerce_reaction_list (cfg : ChannelConfig) (uid : String)
    (custom : Bool) (m : CommerceMessage) :
    (m.latest_reactions = [] ∧ m.text = none →
      showsReactionList
        (renderMessageCommerce cfg uid custom initialShowDetailedReactions m) =
        false) ∧
    (m.latest_reactions ≠ [] ∧
        ¬ (m.mtype = "message.read" ∨ m.mtype = "message.date") ∧
        m.deleted_at = none →
      showsReactionList
          (renderMessageCommerce cfg uid custom initialShowDetailedReactions m) =
          true ∧
      showsReactionSelector
          (renderMessageCommerce cfg uid custom initialShowDetailedReactions m) =
          false ∧
      showsReactionSelector
          (renderMessageCommerce cfg uid custom
            (clickReactionList initialShowDetailedReactions) m) = true) := by
  constructor
  · rintro ⟨ha, -⟩
    unfold renderMessageCommerce
    by_cases h1 : m.mtype = "message.read" ∨ m.mtype = "message.date"
    · rw [if_pos h1]
      rfl
    · rw [if_neg h1]
      by_cases h2 : m.deleted_at.isSome
      · rw [if_pos h2]
        cases custom <;> rfl
      · rw [if_neg h2]
        show (!m.latest_reactions.isEmpty) = false
        rw [ha]
        rfl
  · rintro ⟨ha, hb, hc⟩
    have hL : (!m.latest_reactions.isEmpty) = true := by
      cases hL : m.latest_reactions with
      | nil => exact absurd hL ha
      | cons r rest => rfl
    unfold renderMessageCommerce
    rw [hc]
    simp only [hb, Option.isSome_none, Bool.false_eq_true, if_false]
    exact ⟨hL, rfl, rfl⟩

/-- Witness for the amended C7 at a concrete message carrying one
reaction: list shown, selector hidden initially, selector shown after
the click. -/
theorem renderMessageCommerce_reaction_list_witness :
    showsReactionList
        (renderMessageCommerce { reactions := true, replies := true } "alice"
          false initialShowDetailedReactions
          { mtype := "regular", status := "received", text := none,
            deleted_at := none,
            latest_reactions := [{ rtype := "love", user_id := "bob" }],
            user_id := "alice", reply_count := 0 }) = true ∧
    showsReactionSelector
        (renderMessageCommerce { reactions := true, replies := true } "alice"
          false initialShowDetailedReactions
          { mtype := "regular", status := "received", text := none,
            deleted_at := none,
            latest_reactions := [{ rtype := "love", user_id := "bob" }],
            user_id := "alice", reply_count := 0 }) = false ∧
    showsReactionSelector
        (renderMessageCommerce { reactions := true, replies := true } "alice"
          false (clickReactionList initialShowDetailedReactions)
          { mtype := "regular", status := "received", text := none,
            deleted_at := none,
            latest_reactions := [{ rtype := "love", user_id := "bob" }],
            user_id := "alice", reply_count := 0 }) = true :=
  (renderMessageCommerce_reaction_list { reactions := true, replies := true }
      "alice" false
      { mtype := "regular", status := "received", text := none,
        deleted_at := none,
        latest_reactions := [{ rtype := "love", user_id := "bob" }],
        user_id := "alice", reply_count := 0 }).2
    ⟨by decide, by decide, rfl⟩

/-- Counterexample to C7 as stated: a deleted message carrying one
reaction renders the deleted view, so no reaction-list summary renders
although the message has at least one reaction. -/
theorem renderMessageCommerce_reaction_list_counterexample :
    ([{ rtype := "love", user_id := "bob" }] : List Reaction) ≠ [] ∧
    showsReactionList
        (renderMessageCommerce { reactions := true, replies := true } "alice"
          false initialShowDetailedReactions
          { mtype := "regular", status := "received", text := none,
            deleted_at := some "2019-12-17T03:24:00",
            latest_reactions := [{ rtype := "love", user_id := "bob" }],
            user_id := "alice", reply_count := 0 }) = false := by
  refine ⟨by decide, by decide⟩
